import Mathlib

/-!
Verification of the EcoVision Climate Visualizer frontend against its
specification.  The definitions below shallowly embed the React frontend
(`App.jsx`, `api.js`, the `Filters`, `SummaryTable` and `TrendAnalysis`
components) and — where the backend analytics engine is absent from the
sources — model the engine from the specification text.  Real numbers are
modelled by the rationals `ℚ`; JavaScript `null`/`undefined` by `Option`;
JSON payloads by an inductive `Json` type.
-/

set_option autoImplicit false

namespace EcoVision

/-! ## JSON values and JavaScript truthiness -/

/-- A JSON value, as delivered by `response.json()` in `App.jsx`. -/
inductive Json where
  | null
  | bool (b : Bool)
  | num (q : ℚ)
  | str (s : String)
  | arr (xs : List Json)
  | obj (fields : List (String × Json))

/-- JavaScript truthiness test `!v` on a JSON value: `null`, `false`, `0`
and the empty string are falsy; arrays and objects are always truthy. -/
def jsFalsy : Json → Bool
  | .null => true
  | .bool b => !b
  | .num q => q == 0
  | .str s => s == ""
  | .arr _ => false
  | .obj _ => false

/-- Property lookup `o[k]` on a list of object fields (first match wins,
as in parsed JSON where keys are unique). -/
def lookupField (fields : List (String × Json)) (k : String) : Option Json :=
  (fields.find? (fun p => p.1 == k)).map (·.2)

/-- The emptiness test of `App.jsx` line 51:
`!data || !data.data || (Array.isArray(data.data) && data.data.length === 0)
|| (typeof data.data === 'object' && Object.keys(data.data).length === 0)`.
Accessing `.data` on a non-object yields `undefined`, which is falsy. -/
def isEmptyPayload (data : Json) : Bool :=
  if jsFalsy data then true
  else
    match data with
    | .obj fields =>
      match lookupField fields "data" with
      | none => true
      | some d =>
        if jsFalsy d then true
        else
          match d with
          | .arr xs => xs.isEmpty
          | .obj fs => fs.isEmpty
          | _ => false
    | _ => true

/-- Extraction of `data.data` used on the non-empty path of `fetchData`. -/
def getDataField (data : Json) : Json :=
  match data with
  | .obj fields => (lookupField fields "data").getD .null
  | _ => .null

/-! ## Filters component (`QUALITY_OPTIONS`, `ANALYSIS_TYPES`) -/

/-- One `<option>` entry of a dropdown in the `Filters` component. -/
structure SelectOption where
  value : String
  label : String
deriving DecidableEq

/-- Verbatim embedding of `QUALITY_OPTIONS` from the `Filters` component. -/
def QUALITY_OPTIONS : List SelectOption :=
  [ { value := "", label := "Any" },
    { value := "excellent", label := "Excellent" },
    { value := "good", label := "Good" },
    { value := "poor", label := "Poor" } ]

/-- Verbatim embedding of `ANALYSIS_TYPES` from the `Filters` component. -/
def ANALYSIS_TYPES : List SelectOption :=
  [ { value := "raw", label := "Climate Data" },
    { value := "weighted", label := "Summary" },
    { value := "trends", label := "Trends" } ]

/-! ## App component: state and `fetchData` -/

/-- The result/UI state of the `App` component that `fetchData` writes:
`climateData` (initial `[]`), `trendData` and `summaryData` (initial
`null`), the error banner and the loading flag. -/
structure AppState where
  climateData : Json
  trendData : Option Json
  summaryData : Option Json
  error : Option String
  loading : Bool

/-- The outcome of the `fetch` call inside `fetchData`: either the network
layer throws (message `msg`), or an HTTP response arrives with `ok`
status flag, numeric status, status text and parsed JSON body. -/
inductive FetchResponse where
  | netError (msg : String)
  | http (ok : Bool) (status : Nat) (statusText : String) (body : Json)

/-- Endpoint selection of `fetchData` (`App.jsx` lines 37–42): default
`/api/v1/climate`, overridden for `trends` and `weighted`. -/
def endpointFor (analysisType : String) : String :=
  if analysisType = "trends" then "/api/v1/trends"
  else if analysisType = "weighted" then "/api/v1/summary"
  else "/api/v1/climate"

/-- The state all three result slots take on the error paths and the
empty-payload path of `fetchData`: everything cleared, loading off. -/
def clearedState (err : String) : AppState :=
  { climateData := .arr [], trendData := none, summaryData := none,
    error := some err, loading := false }

/-- Model of `fetchData` from `App.jsx`, as a pure function from the applied
`analysisType` and the fetch outcome to the resulting component state.
The try/catch/finally structure is compiled away: each branch records
the state after all the `set*` calls and the `finally` ran. -/
def fetchData (analysisType : String) (resp : FetchResponse) : AppState :=
  match resp with
  | .netError msg =>
    clearedState (if msg = "" then "Error fetching data." else msg)
  | .http ok status statusText body =>
    if ok = false then
      clearedState ("API error: " ++ toString status ++ " " ++ statusText)
    else if isEmptyPayload body then
      clearedState "No data available for the selected filters."
    else
      let d := getDataField body
      if analysisType = "trends" then
        { climateData := .arr [], trendData := some d, summaryData := none,
          error := none, loading := false }
      else if analysisType = "weighted" then
        { climateData := .arr [], trendData := none, summaryData := some d,
          error := none, loading := false }
      else
        { climateData := d, trendData := none, summaryData := none,
          error := none, loading := false }

/-! ## SummaryTable component: the `round2` helper -/

/-- What a statistic cell of `SummaryTable` displays: the dash
placeholder `'-'` or a number rounded to two decimals
(`Number(v).toFixed(2)`), carried symbolically. -/
inductive CellR where
  | dash
  | fixed2 (q : ℚ)
deriving DecidableEq

/-- Model of `round2` from `SummaryTable`:
`(v) => v === null || v === undefined ? '-' : Number(v).toFixed(2)`. -/
def round2 (v : Option ℚ) : CellR :=
  match v with
  | none => .dash
  | some q => .fixed2 q

/-! ## TrendAnalysis component -/

/-- What a field of a trend/seasonality card displays: the literal string
`"N/A"`, a plain text value, a rate `x.toFixed(2) unit/month`, a
percentage `(c*100).toFixed(1)%`, or a two-decimal number.  The numeric
payloads are carried symbolically. -/
inductive Rendered where
  | na
  | txt (s : String)
  | rateOf (r : ℚ) (u : String)
  | pct (c : ℚ)
  | fixed2 (q : ℚ)
deriving DecidableEq

/-- The `trend` object of one metric entry of the trends payload. -/
structure TrendFields where
  direction : Option String
  rate : Option ℚ
  unit : Option String
  confidence : Option ℚ
deriving DecidableEq

/-- One anomaly entry of the trends payload. -/
structure Anomaly where
  date : String
  value : ℚ
  deviation : ℚ
deriving DecidableEq

/-- One season bucket of the seasonality `pattern` mapping. -/
structure SeasonData where
  avg : Option ℚ
  trend : Option String
deriving DecidableEq

/-- The `seasonality` object of one metric entry of the trends payload. -/
structure Seasonality where
  detected : Bool
  period : Option String
  confidence : Option ℚ
  pattern : List (String × SeasonData)
deriving DecidableEq

/-- One metric entry of the trends payload rendered by `TrendAnalysis`. -/
structure Analysis where
  trend : TrendFields
  anomalies : List Anomaly
  seasonality : Seasonality
deriving DecidableEq

/-- One rendered card of the Trend Overview section. -/
structure TrendCard where
  metric : String
  direction : Rendered
  rate : Rendered
  confidence : Rendered
deriving DecidableEq

/-- Rendering of one metric card in the Trend Overview section
(`TrendAnalysis`, lines 193–218): `direction ? direction : "N/A"` is a
truthiness test (`""` is falsy); the rate shows only when
`rate !== null && unit` (unit truthy); confidence when
`confidence !== null`. -/
def renderTrendCard (metric : String) (a : Analysis) : TrendCard :=
  { metric := metric,
    direction :=
      match a.trend.direction with
      | some s => if s = "" then .na else .txt s
      | none => .na,
    rate :=
      match a.trend.rate, a.trend.unit with
      | some r, some u => if u = "" then .na else .rateOf r u
      | some _, none => .na
      | none, _ => .na,
    confidence :=
      match a.trend.confidence with
      | some c => .pct (c * 100)
      | none => .na }

/-- The Trend Overview section: `Object.entries(data).map(...)` renders
one card per metric entry, never skipping one. -/
def renderTrendCards (data : List (String × Analysis)) : List TrendCard :=
  data.map fun p => renderTrendCard p.1 p.2

/-- Severity class of one anomaly row (`TrendAnalysis` line 238):
`anomaly.deviation > 3 ? 'bg-red-100 text-red-800'
: 'bg-yellow-100 text-yellow-800'`. -/
def anomalySeverityClass (a : Anomaly) : String :=
  if a.deviation > 3 then "bg-red-100 text-red-800"
  else "bg-yellow-100 text-yellow-800"

/-- One rendered seasonal-pattern block. -/
structure SeasonBlock where
  metric : String
  period : Rendered
  confidence : Rendered
  pattern : List (String × Rendered × Rendered)
deriving DecidableEq

/-- Rendering of one metric of the Seasonal Patterns section
(`TrendAnalysis` lines 253–286): the `analysis.seasonality.detected && (...)`
guard renders nothing when `detected` is false, so period, confidence
and pattern are read only when `detected` is true. -/
def renderSeasonEntry (p : String × Analysis) : Option SeasonBlock :=
  if p.2.seasonality.detected then
    some
      { metric := p.1,
        period :=
          match p.2.seasonality.period with
          | some s => if s = "" then .na else .txt s
          | none => .na,
        confidence :=
          match p.2.seasonality.confidence with
          | some c => .pct (c * 100)
          | none => .na,
        pattern :=
          p.2.seasonality.pattern.map fun q =>
            (q.1,
             match q.2.avg with
             | some v => Rendered.fixed2 v
             | none => Rendered.na,
             match q.2.trend with
             | some t => if t = "" then Rendered.na else Rendered.txt t
             | none => Rendered.na) }
  else none

/-- The Seasonal Patterns section over all metric entries. -/
def renderSeasonality (data : List (String × Analysis)) : List SeasonBlock :=
  data.filterMap renderSeasonEntry

/-! ## `api.js`: `buildQueryString` and `encodeURIComponent` -/

/-- A JavaScript value appearing in a filters object: `undefined`,
`null`, a string, or a number. -/
inductive JsVal where
  | undef
  | nullv
  | str (s : String)
  | num (q : ℚ)
deriving DecidableEq

/-- The coercion a template literal applies to a kept value.  Numbers
are carried by their decimal numeral when integral (the only case the
app produces); non-integral rationals keep a `num:` marker. -/
def jsValToString : JsVal → String
  | .undef => "undefined"
  | .nullv => "null"
  | .str s => s
  | .num q => if q.den = 1 then toString q.num else "num:" ++ toString q

/-- Characters `encodeURIComponent` leaves unescaped:
`A–Z a–z 0–9 - _ . ! ~ * ' ( )`. -/
def isUnescapedURIChar (c : Char) : Bool :=
  c.isAlphanum || c = '-' || c = '_' || c = '.' || c = '!' || c = '~'
    || c = '*' || c = Char.ofNat 39 || c = '(' || c = ')'

/-- Uppercase hexadecimal digit for `n < 16`. -/
def hexDigit (n : Nat) : Char :=
  if n < 10 then Char.ofNat (48 + n) else Char.ofNat (55 + (n - 10))

/-- UTF-8 byte sequence of a character. -/
def utf8Bytes (c : Char) : List Nat :=
  let n := c.toNat
  if n < 0x80 then [n]
  else if n < 0x800 then
    [0xC0 + n / 64, 0x80 + n % 64]
  else if n < 0x10000 then
    [0xE0 + n / 4096, 0x80 + n / 64 % 64, 0x80 + n % 64]
  else
    [0xF0 + n / 262144, 0x80 + n / 4096 % 64, 0x80 + n / 64 % 64, 0x80 + n % 64]

/-- Model of `encodeURIComponent`: unescaped characters pass through, every other
character is replaced by the `%XX` encoding of its UTF-8 bytes. -/
def encodeURIComponent (s : String) : String :=
  String.mk <| s.data.foldr (fun c acc =>
    if isUnescapedURIChar c then c :: acc
    else (utf8Bytes c).foldr (fun b acc2 =>
      '%' :: hexDigit (b / 16) :: hexDigit (b % 16) :: acc2) acc) []

/-- The filter predicate of `buildQueryString`:
`v !== undefined && v !== null && v !== ""`. -/
def keepParam (v : JsVal) : Bool :=
  v != JsVal.undef && v != JsVal.nullv && v != JsVal.str ""

/-- Model of `buildQueryString` from `api.js`: filter out `undefined`/`null`/`""`
values, URI-encode each remaining key and value as `key=value`, join
with `&`. -/
def buildQueryString (params : List (String × JsVal)) : String :=
  String.intercalate "&" <|
    (params.filter fun p => keepParam p.2).map fun p =>
      encodeURIComponent p.1 ++ "=" ++ encodeURIComponent (jsValToString p.2)

/-! ## Climate Analytics Engine (backend), modelled from the spec

The backend that computes summaries is not among the frontend sources, so
its Weighted Summary Calculator is modelled from the specification text
(§3, §4.1, §4.2). -/

/-- Modelled from the spec: the closed ordered quality set
`{excellent, good, questionable, poor}` (the backend's
`utils/constants.py` is not among the sources). -/
inductive QualityGrade where
  | excellent
  | good
  | questionable
  | poor
deriving DecidableEq

/-- The four grades, in their specified order. -/
def allGrades : List QualityGrade :=
  [.excellent, .good, .questionable, .poor]

/-- Modelled from the spec: one observation
`{timestamp (day resolution), value, quality}`.  The timestamp is an
opaque day label; values are rationals. -/
structure Observation where
  timestamp : String
  value : ℚ
  quality : QualityGrade
deriving DecidableEq

/-- Modelled from the spec: a weight table mapping each grade to a fixed
real weight, injected as configuration (spec §4.1, §9). -/
def WeightTable : Type := QualityGrade → ℚ

/-- Modelled from the spec: total quality weight
`Σ weight(quality_i)` of a sequence of observations. -/
def totalWeight (w : WeightTable) (obs : List Observation) : ℚ :=
  (obs.map fun o => w o.quality).sum

/-- Modelled from the spec:
`weighted_mean = Σ(value_i · weight(quality_i)) / Σ(weight(quality_i))`. -/
def weightedMean (w : WeightTable) (obs : List Observation) : ℚ :=
  (obs.map fun o => o.value * w o.quality).sum / totalWeight w obs

/-- Modelled from the spec: `mean` is the unweighted arithmetic
average of the values. -/
def obsMean (obs : List Observation) : ℚ :=
  (obs.map fun o => o.value).sum / obs.length

/-- Modelled from the spec:
`quality_distribution[g] = (Σ weight of observations with grade g) /
(Σ weight of all observations)` — weight-mass based. -/
def qualityDistribution (w : WeightTable) (obs : List Observation)
    (g : QualityGrade) : ℚ :=
  ((obs.filter fun o => o.quality = g).map fun o => w o.quality).sum
    / totalWeight w obs

/-- Modelled from the spec: the SummaryResult value object
`{min, max, mean, weighted_mean, quality_distribution}` (the `unit`
pass-through field is omitted as pure plumbing). -/
structure SummaryResult where
  min : ℚ
  max : ℚ
  mean : ℚ
  weighted_mean : ℚ
  quality_distribution : QualityGrade → ℚ

/-- Modelled from the spec: the Weighted Summary Calculator (§4.2).
Empty input yields the explicit empty signal `none`, never a
zero-filled result; otherwise min/max/mean/weighted-mean and the
weight-mass quality distribution are computed. -/
def computeSummary (w : WeightTable) (obs : List Observation) :
    Option SummaryResult :=
  match obs with
  | [] => none
  | o :: rest =>
    some
      { min := rest.foldl (fun m x => min m x.value) o.value,
        max := rest.foldl (fun m x => max m x.value) o.value,
        mean := obsMean (o :: rest),
        weighted_mean := weightedMean w (o :: rest),
        quality_distribution := qualityDistribution w (o :: rest) }

/-- The three-observation scenario of spec §8. -/
def scenarioObs : List Observation :=
  [ { timestamp := "2023-01-01", value := 10, quality := .good },
    { timestamp := "2023-02-01", value := 12, quality := .excellent },
    { timestamp := "2023-03-01", value := 14, quality := .poor } ]

/-- The weight table of the spec §8 scenario: excellent 1.0, good 0.8,
poor 0.3.  The scenario fixes no weight for questionable; 0.6 is used,
consistent with the strictly decreasing order of §3 (the scenario input
contains no questionable observation, so the value is immaterial). -/
def specWeights : WeightTable
  | .excellent => 1
  | .good => 4/5
  | .questionable => 3/5
  | .poor => 3/10

/-! ## Theorems -/

/-- C1: the user-facing quality-threshold filter should offer a
selectable option for each of the four grades of the closed quality set
besides the `Any` entry — but the `QUALITY_OPTIONS` list of the
`Filters` component offers only `Any`, `excellent`, `good` and `poor`:
the option for the grade `questionable` is missing, contradicting the
repository's own README, which documents `quality_threshold` as one of
excellent, good, questionable, poor. -/
theorem C1_quality_options_omit_questionable :
    QUALITY_OPTIONS.map SelectOption.value = ["", "excellent", "good", "poor"]
      ∧ "questionable" ∉ QUALITY_OPTIONS.map SelectOption.value := by
  decide

/-- C8: `fetchData` selects exactly one endpoint as a function of
`analysisType` — `/api/v1/trends` for `trends`, `/api/v1/summary` for
`weighted`, `/api/v1/climate` for anything else — and `raw`, `weighted`
and `trends` are exactly the analysis types the `Filters` component
offers. -/
theorem C8_endpoint_selection (s : String)
    (h1 : s ≠ "trends") (h2 : s ≠ "weighted") :
    endpointFor "trends" = "/api/v1/trends"
      ∧ endpointFor "weighted" = "/api/v1/summary"
      ∧ endpointFor s = "/api/v1/climate"
      ∧ ANALYSIS_TYPES.map SelectOption.value = ["raw", "weighted", "trends"] := by
  refine ⟨by decide, by decide, ?_, by decide⟩
  simp [endpointFor, h1, h2]

/-- Witness for C8 at the concrete analysis type `raw`. -/
theorem C8_endpoint_selection_witness :
    endpointFor "trends" = "/api/v1/trends"
      ∧ endpointFor "weighted" = "/api/v1/summary"
      ∧ endpointFor "raw" = "/api/v1/climate"
      ∧ ANALYSIS_TYPES.map SelectOption.value = ["raw", "weighted", "trends"] :=
  C8_endpoint_selection "raw" (by decide) (by decide)

/-- C4: whenever the response body's `data` payload is absent, an empty
array or an empty object, `fetchData` sets the error message
`No data available for the selected filters.`, resets `trendData` and
`summaryData` to `null` and `climateData` to `[]`, and ends with
`loading` off; and `round2` renders a `null`/`undefined` statistic as
the dash placeholder, never as the number 0. -/
theorem C4_empty_payload_handling (analysisType : String) (status : Nat)
    (statusText : String) (body : Json) (h : isEmptyPayload body = true) :
    fetchData analysisType (.http true status statusText body)
        = clearedState "No data available for the selected filters."
      ∧ round2 none = CellR.dash
      ∧ (∀ q : ℚ, round2 (some q) = CellR.fixed2 q)
      ∧ round2 none ≠ CellR.fixed2 0 := by
  refine ⟨?_, rfl, fun q => rfl, by simp [round2]⟩
  simp [fetchData, h]

/-- Witness for C4 at a `null` body and an empty `data` array body. -/
theorem C4_empty_payload_handling_witness :
    fetchData "raw" (.http true 200 "OK" (Json.obj [("data", Json.arr [])]))
        = clearedState "No data available for the selected filters."
      ∧ round2 none = CellR.dash
      ∧ (∀ q : ℚ, round2 (some q) = CellR.fixed2 q)
      ∧ round2 none ≠ CellR.fixed2 0 :=
  C4_empty_payload_handling "raw" 200 "OK" (Json.obj [("data", Json.arr [])]) rfl

/-- C6: the severity band of an anomaly row is a function of the carried
`deviation` field alone — the red high-severity class exactly when
`deviation > 3`, the yellow class otherwise; two anomalies with the same
deviation always get the same class whatever their date and value. -/
theorem C6_anomaly_severity_banding (a : Anomaly) :
    (anomalySeverityClass a = "bg-red-100 text-red-800" ↔ 3 < a.deviation)
      ∧ (anomalySeverityClass a = "bg-yellow-100 text-yellow-800" ↔ ¬ 3 < a.deviation)
      ∧ (∀ b : Anomaly, b.deviation = a.deviation →
          anomalySeverityClass b = anomalySeverityClass a) := by
  have hne : ("bg-red-100 text-red-800" : String) ≠ "bg-yellow-100 text-yellow-800" := by
    decide
  refine ⟨?_, ?_, ?_⟩
  · by_cases h : 3 < a.deviation <;> simp [anomalySeverityClass, h, hne]
  · by_cases h : 3 < a.deviation <;> simp [anomalySeverityClass, h, hne]
  · intro b hb
    simp [anomalySeverityClass, hb]

/-- Witness for C6 at deviations 4 (red) and 2 (yellow). -/
theorem C6_anomaly_severity_banding_witness :
    anomalySeverityClass { date := "2023-06-01", value := 20, deviation := 4 }
        = "bg-red-100 text-red-800"
      ∧ anomalySeverityClass { date := "2023-07-01", value := 5, deviation := 2 }
        = "bg-yellow-100 text-yellow-800" :=
  ⟨(C6_anomaly_severity_banding _).1.mpr (by norm_num),
   (C6_anomaly_severity_banding _).2.1.mpr (by norm_num)⟩

/-- C5: the Trend Overview section renders one card per metric entry of
the trends payload (none omitted), every entry's card is among the
rendered cards, and each of the three trend fields displays `N/A`
whenever its value is `null`. -/
theorem C5_trend_cards_render_na (data : List (String × Analysis))
    (m : String) (a : Analysis) (hmem : (m, a) ∈ data) :
    (renderTrendCards data).length = data.length
      ∧ renderTrendCard m a ∈ renderTrendCards data
      ∧ (a.trend.direction = none → (renderTrendCard m a).direction = .na)
      ∧ (a.trend.rate = none → (renderTrendCard m a).rate = .na)
      ∧ (a.trend.confidence = none → (renderTrendCard m a).confidence = .na) := by
  refine ⟨by simp [renderTrendCards], ?_, ?_, ?_, ?_⟩
  · exact List.mem_map.mpr ⟨(m, a), hmem, rfl⟩
  · intro h; simp [renderTrendCard, h]
  · intro h; cases hu : a.trend.unit <;> simp [renderTrendCard, h, hu]
  · intro h; simp [renderTrendCard, h]

/-- Witness for C5 on a one-metric payload whose trend fields are all
`null` (insufficient points). -/
theorem C5_trend_cards_render_na_witness :
    (renderTrendCards
        [("temperature",
          { trend := { direction := none, rate := none, unit := none,
                       confidence := none },
            anomalies := [],
            seasonality := { detected := false, period := none,
                             confidence := none, pattern := [] } })]).length = 1
      ∧ (renderTrendCard "temperature"
          { trend := { direction := none, rate := none, unit := none,
                       confidence := none },
            anomalies := [],
            seasonality := { detected := false, period := none,
                             confidence := none, pattern := [] } }).direction = .na := by
  have h := C5_trend_cards_render_na
    [("temperature",
      { trend := { direction := none, rate := none, unit := none,
                   confidence := none },
        anomalies := [],
        seasonality := { detected := false, period := none,
                         confidence := none, pattern := [] } })]
    "temperature"
    { trend := { direction := none, rate := none, unit := none,
                 confidence := none },
      anomalies := [],
      seasonality := { detected := false, period := none,
                       confidence := none, pattern := [] } }
    (List.mem_singleton.mpr rfl)
  exact ⟨h.1, h.2.2.1 rfl⟩

/-- C7: a metric whose `seasonality.detected` is false produces no
seasonal-pattern block, and every rendered block comes from an entry
whose `detected` is true — period, confidence and pattern are read only
under the `detected` guard. -/
theorem C7_seasonality_detected_gating (data : List (String × Analysis))
    (p : String × Analysis) :
    (p.2.seasonality.detected = false → renderSeasonEntry p = none)
      ∧ (∀ b ∈ renderSeasonality data,
          ∃ q, q ∈ data ∧ q.2.seasonality.detected = true
            ∧ renderSeasonEntry q = some b) := by
  constructor
  · intro h
    simp [renderSeasonEntry, h]
  · intro b hb
    obtain ⟨q, hq, hsome⟩ := List.mem_filterMap.mp hb
    refine ⟨q, hq, ?_, hsome⟩
    by_contra hfalse
    rw [Bool.not_eq_true] at hfalse
    simp [renderSeasonEntry, hfalse] at hsome

/-- Witness for C7: a metric with `detected = false` renders no block. -/
theorem C7_seasonality_detected_gating_witness :
    renderSeasonEntry
      ("precipitation",
        { trend := { direction := some "stable", rate := some 0,
                     unit := some "mm", confidence := some 1 },
          anomalies := [],
          seasonality := { detected := false, period := none,
                           confidence := none, pattern := [] } }) = none :=
  (C7_seasonality_detected_gating []
    ("precipitation",
      { trend := { direction := some "stable", rate := some 0,
                   unit := some "mm", confidence := some 1 },
        anomalies := [],
        seasonality := { detected := false, period := none,
                         confidence := none, pattern := [] } })).1 rfl

/-- C9: after any completed `fetchData` call — success, empty payload,
HTTP failure or thrown error — loading is off, a result slot other than
the one matching the requested `analysisType` is always at its empty
value, and when the requested type is `trends` or `weighted` the
`climateData` slot is reset to `[]`; so at most one of the three result
states is ever populated. -/
theorem C9_at_most_one_result_state (analysisType : String)
    (resp : FetchResponse) :
    (fetchData analysisType resp).loading = false
      ∧ ((fetchData analysisType resp).trendData = none ∨ analysisType = "trends")
      ∧ ((fetchData analysisType resp).summaryData = none ∨ analysisType = "weighted")
      ∧ (analysisType = "trends" ∨ analysisType = "weighted" →
          (fetchData analysisType resp).climateData = Json.arr []) := by
  rcases resp with msg | ⟨ok, status, statusText, body⟩
  · exact ⟨rfl, Or.inl rfl, Or.inl rfl, fun _ => rfl⟩
  · cases ok
    · exact ⟨rfl, Or.inl rfl, Or.inl rfl, fun _ => rfl⟩
    · by_cases hempty : isEmptyPayload body = true
      · simp [fetchData, hempty, clearedState]
      · by_cases ht : analysisType = "trends"
        · simp [fetchData, hempty, ht]
        · by_cases hw : analysisType = "weighted"
          · simp [fetchData, hempty, ht, hw]
          · simp [fetchData, hempty, ht, hw]

/-- Witness for C9 on a successful `weighted` fetch with a non-empty
payload: only `summaryData` is populated. -/
theorem C9_at_most_one_result_state_witness :
    (fetchData "weighted"
        (.http true 200 "OK" (Json.obj [("data", Json.obj [("temperature", Json.num 1)])]))).loading = false
      ∧ (fetchData "weighted"
          (.http true 200 "OK" (Json.obj [("data", Json.obj [("temperature", Json.num 1)])]))).trendData = none
      ∧ (fetchData "weighted"
          (.http true 200 "OK" (Json.obj [("data", Json.obj [("temperature", Json.num 1)])]))).climateData = Json.arr [] := by
  have h := C9_at_most_one_result_state "weighted"
    (.http true 200 "OK" (Json.obj [("data", Json.obj [("temperature", Json.num 1)])]))
  exact ⟨h.1, h.2.1.resolve_right (by decide), h.2.2.2 (Or.inr rfl)⟩

/-- C10: `buildQueryString` keeps an entry exactly when its value is not
`undefined`, not `null` and not the empty string; a filters object all of
whose values are empty yields the empty query string; and the kept
entries are URI-encoded as `key=value` pairs joined with `&`, as the
concrete mixed example shows. -/
theorem C10_buildQueryString_omits_empty (params : List (String × JsVal))
    (hall : ∀ p ∈ params,
      p.2 = JsVal.undef ∨ p.2 = JsVal.nullv ∨ p.2 = JsVal.str "") :
    buildQueryString params = ""
      ∧ (∀ v : JsVal, keepParam v = false
          ↔ (v = JsVal.undef ∨ v = JsVal.nullv ∨ v = JsVal.str ""))
      ∧ buildQueryString
          [("location_id", .str "3"), ("start_date", .str "2023-01-01"),
           ("end_date", .nullv), ("metric", .str ""), ("quality_threshold", .undef)]
          = "location_id=3&start_date=2023-01-01" := by
  have hchar : ∀ v : JsVal, keepParam v = false
      ↔ (v = JsVal.undef ∨ v = JsVal.nullv ∨ v = JsVal.str "") := by
    intro v
    cases v <;> simp [keepParam]
  refine ⟨?_, hchar, by decide⟩
  have hfil : params.filter (fun p => keepParam p.2) = [] := by
    rw [List.filter_eq_nil_iff]
    intro p hp
    rw [Bool.not_eq_true, hchar]
    exact hall p hp
  simp only [buildQueryString, hfil, List.map_nil]
  rfl

/-- Witness for C10 on a filters object all of whose values are empty. -/
theorem C10_buildQueryString_omits_empty_witness :
    buildQueryString
        [("location_id", .str ""), ("metric", .nullv), ("start_date", .undef)] = ""
      ∧ buildQueryString
          [("location_id", .str "3"), ("start_date", .str "2023-01-01"),
           ("end_date", .nullv), ("metric", .str ""), ("quality_threshold", .undef)]
          = "location_id=3&start_date=2023-01-01" := by
  have h := C10_buildQueryString_omits_empty
    [("location_id", .str ""), ("metric", .nullv), ("start_date", .undef)]
    (by decide)
  exact ⟨h.1, h.2.2⟩

/-- Unfolding of the grade-filtered weight sum over a cons cell. -/
theorem filter_weight_cons (w : WeightTable) (o : Observation)
    (t : List Observation) (g : QualityGrade) :
    (((o :: t).filter fun x => x.quality = g).map fun x => w x.quality).sum
      = (if o.quality = g then w o.quality else 0)
        + ((t.filter fun x => x.quality = g).map fun x => w x.quality).sum := by
  by_cases h : o.quality = g <;> simp [List.filter_cons, h]

/-- Partition of the total weight by grade: summing the grade-filtered
weight sums over the four grades recovers the total weight, because
every observation's quality is exactly one of the four grades. -/
theorem grade_partition (w : WeightTable) (obs : List Observation) :
    (allGrades.map fun g =>
        ((obs.filter fun o => o.quality = g).map fun o => w o.quality).sum).sum
      = totalWeight w obs := by
  induction obs with
  | nil => simp [allGrades, totalWeight]
  | cons o t ih =>
    simp only [allGrades, List.map_cons, List.map_nil, List.sum_cons,
      List.sum_nil] at ih ⊢
    rw [filter_weight_cons, filter_weight_cons, filter_weight_cons,
      filter_weight_cons]
    have ho : totalWeight w (o :: t) = w o.quality + totalWeight w t := by
      simp [totalWeight]
    rw [ho]
    cases hq : o.quality <;> simp [hq] <;> linarith

/-- C2 (counterexample to the stated scenario value): under the
scenario weights, the spec's own formula gives
`weighted_mean = (10·0.8 + 12·1.0 + 14·0.3)/(0.8 + 1.0 + 0.3)
= 24.2/2.1 = 242/21 ≈ 11.524`, which differs from the claimed 11.238 by
more than 0.01. -/
theorem C2_scenario_value_counterexample :
    weightedMean specWeights scenarioObs = 242/21
      ∧ 1/100 < |weightedMean specWeights scenarioObs - 11238/1000| := by
  have h : weightedMean specWeights scenarioObs = 242/21 := by
    simp [weightedMean, totalWeight, scenarioObs, specWeights]
    norm_num
  refine ⟨h, ?_⟩
  rw [h, abs_of_pos (by norm_num)]
  norm_num

/-- C2 (amended): the weighted mean is
`Σ(value_i · weight(quality_i)) / Σ(weight(quality_i))`, and on the
three-observation scenario with weights excellent=1.0, good=0.8,
poor=0.3 the summary is `min=10`, `max=14`, `mean=12` and
`weighted_mean = 242/21 ≈ 11.524` (not 11.238: the spec's arithmetic
slip uses 12·0.3 in place of 14·0.3). -/
theorem C2_weighted_mean_summary (w : WeightTable)
    (hex : w .excellent = 1) (hg : w .good = 4/5) (hp : w .poor = 3/10) :
    (∀ obs : List Observation,
        weightedMean w obs
          = (obs.map fun o => o.value * w o.quality).sum
              / (obs.map fun o => w o.quality).sum)
      ∧ ∃ r : SummaryResult, computeSummary w scenarioObs = some r
          ∧ r.min = 10 ∧ r.max = 14 ∧ r.mean = 12
          ∧ r.weighted_mean = 242/21
          ∧ |r.weighted_mean - 11524/1000| < 1/1000 := by
  refine ⟨fun obs => rfl, ?_⟩
  refine ⟨_, rfl, ?_, ?_, ?_, ?_, ?_⟩
  · show List.foldl _ _ _ = 10
    norm_num [scenarioObs, min_def]
  · show List.foldl _ _ _ = 14
    norm_num [scenarioObs, max_def]
  · show obsMean scenarioObs = 12
    norm_num [obsMean, scenarioObs]
  · show weightedMean w scenarioObs = 242/21
    simp [weightedMean, totalWeight, scenarioObs, hex, hg, hp]
    norm_num
  · show |weightedMean w scenarioObs - 11524/1000| < 1/1000
    have h242 : weightedMean w scenarioObs = 242/21 := by
      simp [weightedMean, totalWeight, scenarioObs, hex, hg, hp]
      norm_num
    rw [h242, abs_of_neg (by norm_num)]
    norm_num

/-- Witness for C2 (amended) at the concrete scenario weight table. -/
theorem C2_weighted_mean_summary_witness :
    ∃ r : SummaryResult, computeSummary specWeights scenarioObs = some r
      ∧ r.min = 10 ∧ r.max = 14 ∧ r.mean = 12 ∧ r.weighted_mean = 242/21
      ∧ |r.weighted_mean - 11524/1000| < 1/1000 :=
  (C2_weighted_mean_summary specWeights rfl rfl rfl).2

/-- C3: for every positive weight table and non-empty observation
sequence, the weight-mass quality-distribution fractions over the four
grades sum to exactly 1, and in particular to 1.0 within 1e-9. -/
theorem C3_quality_distribution_sums_to_one (w : WeightTable)
    (obs : List Observation) (hw : ∀ g, 0 < w g) (hne : obs ≠ []) :
    (allGrades.map (qualityDistribution w obs)).sum = 1
      ∧ |(allGrades.map (qualityDistribution w obs)).sum - 1| < 1/1000000000 := by
  have hmapne : (obs.map fun o => w o.quality) ≠ [] := by
    rw [Ne, List.map_eq_nil_iff]
    exact hne
  have hT : 0 < totalWeight w obs := by
    apply List.sum_pos
    · intro x hx
      obtain ⟨o, _, rfl⟩ := List.mem_map.mp hx
      exact hw o.quality
    · exact hmapne
  have hpart := grade_partition w obs
  simp only [allGrades, List.map_cons, List.map_nil, List.sum_cons,
    List.sum_nil] at hpart
  have hsum : (allGrades.map (qualityDistribution w obs)).sum = 1 := by
    simp only [allGrades, List.map_cons, List.map_nil, List.sum_cons,
      List.sum_nil, qualityDistribution, add_zero]
    rw [add_zero] at hpart
    field_simp
    linarith
  refine ⟨hsum, ?_⟩
  rw [hsum]
  norm_num

/-- Witness for C3 at the scenario weights and observations. -/
theorem C3_quality_distribution_sums_to_one_witness :
    (allGrades.map (qualityDistribution specWeights scenarioObs)).sum = 1 :=
  (C3_quality_distribution_sums_to_one specWeights scenarioObs
    (fun g => by cases g <;> norm_num [specWeights])
    (by simp [scenarioObs])).1

end EcoVision
